import Mathlib

/-!
Shallow embedding of the `serial` Go package (files `port.go` and `net.go`):
a POSIX serial-port driver with termios-based line configuration and
deadline-bounded non-blocking read/write loops, plus a `net.Conn`-style
adapter wrapping a port.

OS interaction (ioctl get/set of the termios structure, non-blocking
`unix.Read`/`unix.Write`, `unix.Close`, `time.Now`) is modelled by explicit
oracles: a `Kern` state for the control interface (with injectable per-call
failures and call counters) and a list of `Attempt` events for the I/O loops
(each event gives the result of one syscall attempt and the clock value the
loop would observe at its deadline check in that iteration).

Go `time.Time` values are modelled as `Nat`: `0` is the zero time
(`IsZero`), and `t.After d` is `t > d`.  Go errors are modelled by the
inductive `GoError`; a Go `error` result is `Option GoError` (`none` = nil).
-/

/-- Go `type BaudRate byte`; the named constants are `iota` values 0..22. -/
abbrev BaudRate := Nat

def BaudRate0 : BaudRate := 0
def BaudRate50 : BaudRate := 1
def BaudRate75 : BaudRate := 2
def BaudRate110 : BaudRate := 3
def BaudRate134 : BaudRate := 4
def BaudRate150 : BaudRate := 5
def BaudRate200 : BaudRate := 6
def BaudRate300 : BaudRate := 7
def BaudRate600 : BaudRate := 8
def BaudRate1200 : BaudRate := 9
def BaudRate1800 : BaudRate := 10
def BaudRate2400 : BaudRate := 11
def BaudRate4800 : BaudRate := 12
def BaudRate7200 : BaudRate := 13
def BaudRate9600 : BaudRate := 14
def BaudRate14400 : BaudRate := 15
def BaudRate19200 : BaudRate := 16
def BaudRate28800 : BaudRate := 17
def BaudRate38400 : BaudRate := 18
def BaudRate57600 : BaudRate := 19
def BaudRate100000 : BaudRate := 20
def BaudRate115200 : BaudRate := 21
def BaudRate230400 : BaudRate := 22

/-- Go `type Parity byte`; iota values 0..2. -/
abbrev Parity := Nat

def ParityNone : Parity := 0
def ParityEven : Parity := 1
def ParityOdd : Parity := 2

/-- Go `type DataBits byte`; iota values 0..3. -/
abbrev DataBits := Nat

def DataBits5 : DataBits := 0
def DataBits6 : DataBits := 1
def DataBits7 : DataBits := 2
def DataBits8 : DataBits := 3

/-- Go `type StopBits byte`; iota values 0..1. -/
abbrev StopBits := Nat

def StopBits1 : StopBits := 0
def StopBits2 : StopBits := 1

/-- Model of Go `error` values that appear in the package: `syscall.EAGAIN`,
`syscall.ETIMEDOUT`, the `errors.New` string errors of the setters, and any
other errno coming back from a syscall. -/
inductive GoError where
  | eagain : GoError
  | etimedout : GoError
  | errorString : String → GoError
  | errno : Nat → GoError
deriving DecidableEq, Repr

/-- Platform speed constants `unix.B0` .. `unix.B230400` (Darwin values,
where the speed code equals the numeric rate; the code targets Darwin,
using `TIOCGETA`/`TIOCSETA`). -/
def B0 : Nat := 0
def B50 : Nat := 50
def B75 : Nat := 75
def B110 : Nat := 110
def B150 : Nat := 150
def B200 : Nat := 200
def B300 : Nat := 300
def B600 : Nat := 600
def B1200 : Nat := 1200
def B1800 : Nat := 1800
def B2400 : Nat := 2400
def B4800 : Nat := 4800
def B7200 : Nat := 7200
def B9600 : Nat := 9600
def B14400 : Nat := 14400
def B19200 : Nat := 19200
def B28800 : Nat := 28800
def B38400 : Nat := 38400
def B57600 : Nat := 57600
def B115200 : Nat := 115200
def B230400 : Nat := 230400

/-- Termios flag bits (Darwin values). -/
def PARENB : Nat := 0x1000
def PARODD : Nat := 0x2000
def CSIZE : Nat := 0x300
def CS5 : Nat := 0x0
def CS6 : Nat := 0x100
def CS7 : Nat := 0x200
def CS8 : Nat := 0x300
def CSTOPB : Nat := 0x400
def IGNBRK : Nat := 0x1
def IXON : Nat := 0x200
def IXOFF : Nat := 0x400
def IXANY : Nat := 0x800
def CLOCAL : Nat := 0x8000
def CREAD : Nat := 0x800

/-- Go `x &^ y` (and-not) on the bit-vector view of naturals:
`x AND (NOT y) = x XOR (x AND y)`. -/
def andNot (x y : Nat) : Nat := x ^^^ (x &&& y)

/-- The fields of `unix.Termios` touched by the package.  `Cc16` and `Cc17`
stand for `Cc[16]` and `Cc[17]` (VMIN/VTIME on Darwin). -/
structure Termios where
  Iflag : Nat
  Cflag : Nat
  Lflag : Nat
  Oflag : Nat
  Ispeed : Nat
  Ospeed : Nat
  Cc16 : Nat
  Cc17 : Nat
deriving DecidableEq, Repr

/-- Control-interface (kernel) state: the authoritative termios, injectable
failures for the n-th get/set ioctl call, and call counters so that claims
about "no control-interface read or write" can be stated. -/
structure Kern where
  termios : Termios
  getErrAt : Nat → Option GoError
  setErrAt : Nat → Option GoError
  getCount : Nat
  setCount : Nat

/-- Model of `unix.IoctlGetTermios(fd, unix.TIOCGETA)`: returns the current
termios (or the injected error) and bumps the get counter. -/
def IoctlGetTermios (kern : Kern) : Except GoError Termios × Kern :=
  match kern.getErrAt kern.getCount with
  | some e => (.error e, { kern with getCount := kern.getCount + 1 })
  | none => (.ok kern.termios, { kern with getCount := kern.getCount + 1 })

/-- Model of `unix.IoctlSetTermios(fd, unix.TIOCSETA, termios)`: commits the
given termios (or fails with the injected error, leaving the kernel termios
unchanged) and bumps the set counter. -/
def IoctlSetTermios (kern : Kern) (termios : Termios) : Option GoError × Kern :=
  match kern.setErrAt kern.setCount with
  | some e => (some e, { kern with setCount := kern.setCount + 1 })
  | none => (none, { kern with termios := termios, setCount := kern.setCount + 1 })

/-- The `posixPort` struct of `port.go`.  Deadlines are `Nat` times with `0`
the Go zero `time.Time`. -/
structure PosixPort where
  path : String
  baudRate : BaudRate
  parity : Parity
  dataBits : DataBits
  stopBits : StopBits
  fd : Int
  readDeadline : Nat
  writeDeadline : Nat
deriving DecidableEq, Repr

/-- The `switch baudRate` statement of `posixPort.SetBaudRate` (port.go
lines 234-300): assigns `Ispeed`/`Ospeed` for the listed rates and falls to
`errors.New("invalid baud rate")` otherwise.  The source switch has no case
for `BaudRate134` or `BaudRate100000`. -/
def SetBaudRateSwitch (baudRate : BaudRate) (termios : Termios) : Except GoError Termios :=
  if baudRate = BaudRate0 then .ok { termios with Ispeed := B0, Ospeed := B0 }
  else if baudRate = BaudRate50 then .ok { termios with Ispeed := B50, Ospeed := B50 }
  else if baudRate = BaudRate75 then .ok { termios with Ispeed := B75, Ospeed := B75 }
  else if baudRate = BaudRate110 then .ok { termios with Ispeed := B110, Ospeed := B110 }
  else if baudRate = BaudRate150 then .ok { termios with Ispeed := B150, Ospeed := B150 }
  else if baudRate = BaudRate200 then .ok { termios with Ispeed := B200, Ospeed := B200 }
  else if baudRate = BaudRate300 then .ok { termios with Ispeed := B300, Ospeed := B300 }
  else if baudRate = BaudRate600 then .ok { termios with Ispeed := B600, Ospeed := B600 }
  else if baudRate = BaudRate1200 then .ok { termios with Ispeed := B1200, Ospeed := B1200 }
  else if baudRate = BaudRate1800 then .ok { termios with Ispeed := B1800, Ospeed := B1800 }
  else if baudRate = BaudRate2400 then .ok { termios with Ispeed := B2400, Ospeed := B2400 }
  else if baudRate = BaudRate4800 then .ok { termios with Ispeed := B4800, Ospeed := B4800 }
  else if baudRate = BaudRate7200 then .ok { termios with Ispeed := B7200, Ospeed := B7200 }
  else if baudRate = BaudRate9600 then .ok { termios with Ispeed := B9600, Ospeed := B9600 }
  else if baudRate = BaudRate14400 then .ok { termios with Ispeed := B14400, Ospeed := B14400 }
  else if baudRate = BaudRate19200 then .ok { termios with Ispeed := B19200, Ospeed := B19200 }
  else if baudRate = BaudRate28800 then .ok { termios with Ispeed := B28800, Ospeed := B28800 }
  else if baudRate = BaudRate38400 then .ok { termios with Ispeed := B38400, Ospeed := B38400 }
  else if baudRate = BaudRate57600 then .ok { termios with Ispeed := B57600, Ospeed := B57600 }
  else if baudRate = BaudRate115200 then .ok { termios with Ispeed := B115200, Ospeed := B115200 }
  else if baudRate = BaudRate230400 then .ok { termios with Ispeed := B230400, Ospeed := B230400 }
  else .error (.errorString "invalid baud rate")

/-- `posixPort.SetBaudRate` (port.go lines 226-306). -/
def PosixPort.SetBaudRate (port : PosixPort) (kern : Kern) (baudRate : BaudRate) :
    Option GoError × PosixPort × Kern :=
  if baudRate = port.baudRate then (none, port, kern)
  else
    match IoctlGetTermios kern with
    | (.error e, kern1) => (some e, port, kern1)
    | (.ok termios, kern1) =>
      match SetBaudRateSwitch baudRate termios with
      | .error e => (some e, port, kern1)
      | .ok termios1 =>
        match IoctlSetTermios kern1 termios1 with
        | (some e, kern2) => (some e, port, kern2)
        | (none, kern2) => (none, { port with baudRate := baudRate }, kern2)

/-- The `switch parity` body of `posixPort.SetParity` (port.go lines
320-330), applied after clearing `PARENB | PARODD`. -/
def SetParitySwitch (parity : Parity) (cflag : Nat) : Except GoError Nat :=
  if parity = ParityNone then .ok cflag
  else if parity = ParityOdd then .ok (cflag ||| PARODD)
  else if parity = ParityEven then .ok (cflag ||| PARENB)
  else .error (.errorString "invalid parity")

/-- `posixPort.SetParity` (port.go lines 312-336). -/
def PosixPort.SetParity (port : PosixPort) (kern : Kern) (parity : Parity) :
    Option GoError × PosixPort × Kern :=
  if parity = port.parity then (none, port, kern)
  else
    match IoctlGetTermios kern with
    | (.error e, kern1) => (some e, port, kern1)
    | (.ok termios, kern1) =>
      match SetParitySwitch parity (andNot termios.Cflag (PARENB ||| PARODD)) with
      | .error e => (some e, port, kern1)
      | .ok cflag1 =>
        match IoctlSetTermios kern1 { termios with Cflag := cflag1 } with
        | (some e, kern2) => (some e, port, kern2)
        | (none, kern2) => (none, { port with parity := parity }, kern2)

/-- The `switch dataBits` body of `posixPort.SetDataBits` (port.go lines
350-362), applied after clearing `CSIZE`. -/
def SetDataBitsSwitch (dataBits : DataBits) (cflag : Nat) : Except GoError Nat :=
  if dataBits = DataBits5 then .ok (cflag ||| CS5)
  else if dataBits = DataBits6 then .ok (cflag ||| CS6)
  else if dataBits = DataBits7 then .ok (cflag ||| CS7)
  else if dataBits = DataBits8 then .ok (cflag ||| CS8)
  else .error (.errorString "invalid data bits")

/-- `posixPort.SetDataBits` (port.go lines 342-368). -/
def PosixPort.SetDataBits (port : PosixPort) (kern : Kern) (dataBits : DataBits) :
    Option GoError × PosixPort × Kern :=
  if dataBits = port.dataBits then (none, port, kern)
  else
    match IoctlGetTermios kern with
    | (.error e, kern1) => (some e, port, kern1)
    | (.ok termios, kern1) =>
      match SetDataBitsSwitch dataBits (andNot termios.Cflag CSIZE) with
      | .error e => (some e, port, kern1)
      | .ok cflag1 =>
        match IoctlSetTermios kern1 { termios with Cflag := cflag1 } with
        | (some e, kern2) => (some e, port, kern2)
        | (none, kern2) => (none, { port with dataBits := dataBits }, kern2)

/-- The `switch stopBits` body of `posixPort.SetStopBits` (port.go lines
382-390), applied after clearing `CSTOPB`. -/
def SetStopBitsSwitch (stopBits : StopBits) (cflag : Nat) : Except GoError Nat :=
  if stopBits = StopBits1 then .ok cflag
  else if stopBits = StopBits2 then .ok (cflag ||| CSTOPB)
  else .error (.errorString "invalid stop bits")

/-- `posixPort.SetStopBits` (port.go lines 374-396). -/
def PosixPort.SetStopBits (port : PosixPort) (kern : Kern) (stopBits : StopBits) :
    Option GoError × PosixPort × Kern :=
  if stopBits = port.stopBits then (none, port, kern)
  else
    match IoctlGetTermios kern with
    | (.error e, kern1) => (some e, port, kern1)
    | (.ok termios, kern1) =>
      match SetStopBitsSwitch stopBits (andNot termios.Cflag CSTOPB) with
      | .error e => (some e, port, kern1)
      | .ok cflag1 =>
        match IoctlSetTermios kern1 { termios with Cflag := cflag1 } with
        | (some e, kern2) => (some e, port, kern2)
        | (none, kern2) => (none, { port with stopBits := stopBits }, kern2)

/-- `posixPort.SetReadDeadline` (port.go lines 408-412). -/
def PosixPort.SetReadDeadline (port : PosixPort) (deadline : Nat) :
    Option GoError × PosixPort :=
  (none, { port with readDeadline := deadline })

/-- `posixPort.SetWriteDeadline` (port.go lines 414-418). -/
def PosixPort.SetWriteDeadline (port : PosixPort) (deadline : Nat) :
    Option GoError × PosixPort :=
  (none, { port with writeDeadline := deadline })

/-- `posixPort.SetDeadline` (port.go lines 398-406): sets the read deadline,
then the write deadline, propagating a failure of either. -/
def PosixPort.SetDeadline (port : PosixPort) (deadline : Nat) :
    Option GoError × PosixPort :=
  match port.SetReadDeadline deadline with
  | (some e, port1) => (some e, port1)
  | (none, port1) =>
    match port1.SetWriteDeadline deadline with
    | (some e, port2) => (some e, port2)
    | (none, port2) => (none, port2)

/-- `posixPort.Close` (port.go lines 482-488): on a `unix.Close` failure
(the oracle argument) returns the error with the port unchanged; on success
sets the fd sentinel `-1`. -/
def PosixPort.Close (port : PosixPort) (closeErr : Option GoError) :
    Option GoError × PosixPort :=
  match closeErr with
  | some e => (some e, port)
  | none => (none, { port with fd := -1 })

/-- One iteration's worth of environment for the `Read`/`Write` retry loops:
the result of the `unix.Read`/`unix.Write` attempt (bytes transferred, or an
error), and the value `time.Now()` would return at this iteration's deadline
check. -/
structure Attempt where
  res : Except GoError Nat
  now : Nat
deriving Repr

/-- The `for` loop of `posixPort.Read` (port.go lines 427-449), with `n` the
bytes accumulated so far.  Each iteration consumes one `Attempt`.  Faithful
to the source: a non-EAGAIN error returns immediately; an EAGAIN is kept in
`err` while falling through to the deadline checks; on success `err` is nil,
and a full buffer returns; the deadline consulted is `port.writeDeadline`
(source lines 439 and 442), not `readDeadline`.  `none` means the loop is
still running when the event trace is exhausted. -/
def readLoop (writeDeadline : Nat) (plen : Nat) :
    Nat → List Attempt → Option (Nat × Option GoError)
  | _, [] => none
  | n, attempt :: rest =>
    match attempt.res with
    | .error e =>
      if e ≠ GoError.eagain then some (n, some e)
      else if writeDeadline = 0 then some (n, some e)
      else if attempt.now > writeDeadline then some (n, some GoError.etimedout)
      else readLoop writeDeadline plen n rest
    | .ok k =>
      if n + k = plen then some (n + k, none)
      else if writeDeadline = 0 then some (n + k, none)
      else if attempt.now > writeDeadline then some (n + k, some GoError.etimedout)
      else readLoop writeDeadline plen (n + k) rest

/-- `posixPort.Read` (port.go lines 420-450).  `plen` is `len(p)`; only the
buffer length matters for control flow.  Returns `(n, err)` on termination
within the event trace. -/
def PosixPort.Read (port : PosixPort) (plen : Nat) (events : List Attempt) :
    Option (Nat × Option GoError) :=
  if plen = 0 then some (0, none)
  else readLoop port.writeDeadline plen 0 events

/-- The `for` loop of `posixPort.Write` (port.go lines 459-479): identical
control flow to the read loop (the `time.Sleep` placement differs but has no
observable effect); the deadline consulted is `port.writeDeadline` (source
lines 472 and 475). -/
def writeLoop (writeDeadline : Nat) (plen : Nat) :
    Nat → List Attempt → Option (Nat × Option GoError)
  | _, [] => none
  | n, attempt :: rest =>
    match attempt.res with
    | .error e =>
      if e ≠ GoError.eagain then some (n, some e)
      else if writeDeadline = 0 then some (n, some e)
      else if attempt.now > writeDeadline then some (n, some GoError.etimedout)
      else writeLoop writeDeadline plen n rest
    | .ok k =>
      if n + k = plen then some (n + k, none)
      else if writeDeadline = 0 then some (n + k, none)
      else if attempt.now > writeDeadline then some (n + k, some GoError.etimedout)
      else writeLoop writeDeadline plen (n + k) rest

/-- `posixPort.Write` (port.go lines 452-480). -/
def PosixPort.Write (port : PosixPort) (plen : Nat) (events : List Attempt) :
    Option (Nat × Option GoError) :=
  if plen = 0 then some (0, none)
  else writeLoop port.writeDeadline plen 0 events

/-- The baseline termios forced by `NewPort` (port.go lines 181-191): clear
parity bits, force 8-bit words, one stop bit, clear break/flow-control bits,
set `CLOCAL | CREAD`, zero the local and output flags and `Cc[16]`,
`Cc[17]`. -/
def baselineTermios (termios : Termios) : Termios :=
  let cflag := andNot termios.Cflag (PARENB ||| PARODD)
  let cflag := andNot cflag CSIZE
  let cflag := cflag ||| CS8
  let cflag := andNot cflag CSTOPB
  let cflag := andNot cflag IGNBRK
  let cflag := andNot cflag (IXON ||| IXOFF ||| IXANY)
  let cflag := cflag ||| (CLOCAL ||| CREAD)
  { termios with Cflag := cflag, Lflag := 0, Oflag := 0, Cc16 := 0, Cc17 := 0 }

/-- Environment for `NewPort`: the result of `unix.Open`, the result of the
`TIOCEXCL` exclusivity ioctl, and the control-interface state used by the
initial get/set and the four setters. -/
structure NewPortEnv where
  openRes : Except GoError Int
  exclErr : Option GoError
  kern : Kern

/-- Observable outcome of `NewPort`: the returned port (or none), the
returned error, the final control-interface state, and the list of fds
passed to `unix.Close` during the call (by the deferred cleanup). -/
structure NewPortResult where
  port : Option PosixPort
  err : Option GoError
  kern : Kern
  closedFds : List Int

/-- `NewPort` (port.go lines 163-216): open, request exclusivity, read and
baseline the termios, then apply the four requested settings through the
setters; the deferred `unix.Close(fd)` runs whenever `err` is non-nil after
a successful open. -/
def NewPort (env : NewPortEnv) (path : String) (baudRate : BaudRate)
    (parity : Parity) (dataBits : DataBits) (stopBits : StopBits) : NewPortResult :=
  match env.openRes with
  | .error e => ⟨none, some e, env.kern, []⟩
  | .ok fd =>
    match env.exclErr with
    | some e => ⟨none, some e, env.kern, [fd]⟩
    | none =>
      match IoctlGetTermios env.kern with
      | (.error e, kern1) => ⟨none, some e, kern1, [fd]⟩
      | (.ok termios, kern1) =>
        match IoctlSetTermios kern1 (baselineTermios termios) with
        | (some e, kern2) => ⟨none, some e, kern2, [fd]⟩
        | (none, kern2) =>
          let port0 : PosixPort :=
            ⟨path, BaudRate9600, ParityNone, DataBits8, StopBits1, fd, 0, 0⟩
          match port0.SetBaudRate kern2 baudRate with
          | (some e, _, kern3) => ⟨none, some e, kern3, [fd]⟩
          | (none, port1, kern3) =>
            match port1.SetParity kern3 parity with
            | (some e, _, kern4) => ⟨none, some e, kern4, [fd]⟩
            | (none, port2, kern4) =>
              match port2.SetDataBits kern4 dataBits with
              | (some e, _, kern5) => ⟨none, some e, kern5, [fd]⟩
              | (none, port3, kern5) =>
                match port3.SetStopBits kern5 stopBits with
                | (some e, _, kern6) => ⟨none, some e, kern6, [fd]⟩
                | (none, port4, kern6) => ⟨some port4, none, kern6, []⟩

/-- The `conn` adapter of `net.go`: wraps a port behind the `net.Conn`
contract. -/
structure Conn where
  port : PosixPort
deriving DecidableEq, Repr

/-- `conn.Read` (net.go lines 23-25): delegates to the port. -/
def Conn.Read (conn : Conn) (plen : Nat) (events : List Attempt) :
    Option (Nat × Option GoError) :=
  conn.port.Read plen events

/-- `conn.Write` (net.go lines 27-29): delegates to the port. -/
def Conn.Write (conn : Conn) (plen : Nat) (events : List Attempt) :
    Option (Nat × Option GoError) :=
  conn.port.Write plen events

/-- `conn.Close` (net.go lines 31-33): delegates to the port. -/
def Conn.Close (conn : Conn) (closeErr : Option GoError) : Option GoError × Conn :=
  match conn.port.Close closeErr with
  | (e, port1) => (e, ⟨port1⟩)

/-- `conn.SetDeadline` (net.go lines 45-47): delegates to
`port.SetDeadline`. -/
def Conn.SetDeadline (conn : Conn) (deadline : Nat) : Option GoError × Conn :=
  match conn.port.SetDeadline deadline with
  | (e, port1) => (e, ⟨port1⟩)

/-- `conn.SetReadDeadline` (net.go lines 49-51): delegates to
`port.SetReadDeadline`. -/
def Conn.SetReadDeadline (conn : Conn) (deadline : Nat) : Option GoError × Conn :=
  match conn.port.SetReadDeadline deadline with
  | (e, port1) => (e, ⟨port1⟩)

/-- `conn.SetWriteDeadline` (net.go lines 53-55).  Faithful to the source:
the body is `return conn.port.SetReadDeadline(deadline)` — it delegates to
the port's `SetReadDeadline`, not `SetWriteDeadline`. -/
def Conn.SetWriteDeadline (conn : Conn) (deadline : Nat) : Option GoError × Conn :=
  match conn.port.SetReadDeadline deadline with
  | (e, port1) => (e, ⟨port1⟩)

/-! Concrete instances used by counterexamples and witnesses. -/

/-- An all-zero termios. -/
def termiosZero : Termios := ⟨0, 0, 0, 0, 0, 0, 0, 0⟩

/-- A control interface that never fails. -/
def kernOk : Kern := ⟨termiosZero, fun _ => none, fun _ => none, 0, 0⟩

/-- An open port with no deadline set (both deadline fields are the zero
time). -/
def portNoDeadline : PosixPort :=
  ⟨"/dev/tty.usbserial", BaudRate9600, ParityNone, DataBits8, StopBits1, 3, 0, 0⟩

/-- An open port whose write deadline is set to time 3. -/
def portWriteDeadline3 : PosixPort :=
  ⟨"/dev/tty.usbserial", BaudRate9600, ParityNone, DataBits8, StopBits1, 3, 0, 3⟩

/-! Helper lemmas. -/

/-- With a nonzero (set) deadline, the read loop never terminates with the
would-block error: its error result is nil, timeout, or a genuine
non-would-block error. -/
theorem readLoop_ne_eagain (wd plen : Nat) (hwd : wd ≠ 0) (events : List Attempt) :
    ∀ n m : Nat, readLoop wd plen n events ≠ some (m, some GoError.eagain) := by
  induction events with
  | nil => intro n m; simp [readLoop]
  | cons a rest ih =>
    intro n m
    obtain ⟨res, now⟩ := a
    cases res with
    | error e =>
      simp only [readLoop]
      by_cases he : e = GoError.eagain
      · subst he
        simp only [ne_eq, not_true_eq_false, if_false, hwd]
        split
        · simp
        · exact ih n m
      · simp [he]
    | ok k =>
      simp only [readLoop]
      split
      · simp
      · split
        · simp
        · exact ih (n + k) m

/-- Write-loop analogue of `readLoop_ne_eagain`. -/
theorem writeLoop_ne_eagain (wd plen : Nat) (hwd : wd ≠ 0) (events : List Attempt) :
    ∀ n m : Nat, writeLoop wd plen n events ≠ some (m, some GoError.eagain) := by
  induction events with
  | nil => intro n m; simp [writeLoop]
  | cons a rest ih =>
    intro n m
    obtain ⟨res, now⟩ := a
    cases res with
    | error e =>
      simp only [writeLoop]
      by_cases he : e = GoError.eagain
      · subst he
        simp only [ne_eq, not_true_eq_false, if_false, hwd]
        split
        · simp
        · exact ih n m
      · simp [he]
    | ok k =>
      simp only [writeLoop]
      split
      · simp
      · split
        · simp
        · exact ih (n + k) m

/-! Claim theorems. -/

/-- C1 (counterexample): with no deadline set, a Read of a 2-byte buffer
against a device that delivers 1 byte on the first attempt returns the
partial count 1 with no error — contradicting the claim that with no
deadline the operation retries indefinitely and never returns a partial
count with no error. -/
theorem c1_counterexample :
    PosixPort.Read portNoDeadline 2 [⟨.ok 1, 1⟩] = some (1, none) ∧ (1 : Nat) < 2 := by
  exact ⟨rfl, by decide⟩

/-- C1 (amended): with no deadline set (writeDeadline zero, the field both
loops consult), Read and Write do not retry at all: they return after the
first attempt, propagating that attempt's outcome verbatim — the full
length and nil error when the attempt fills the buffer, a partial count
with nil error on a partial transfer, and the attempt's error (would-block
included) with count 0 otherwise. -/
theorem c1_no_deadline_single_attempt (port : PosixPort) (plen : Nat)
    (a : Attempt) (rest : List Attempt)
    (hz : port.writeDeadline = 0) (hp : 0 < plen) :
    port.Read plen (a :: rest) =
      some (match a.res with | .error e => (0, some e) | .ok k => (k, none)) ∧
    port.Write plen (a :: rest) =
      some (match a.res with | .error e => (0, some e) | .ok k => (k, none)) := by
  obtain ⟨res, now⟩ := a
  have hp0 : plen ≠ 0 := Nat.pos_iff_ne_zero.mp hp
  constructor
  · unfold PosixPort.Read readLoop
    rw [if_neg hp0, hz]
    cases res with
    | error e => by_cases he : e = GoError.eagain <;> simp [he]
    | ok k => by_cases hk : k = plen <;> simp [hk]
  · unfold PosixPort.Write writeLoop
    rw [if_neg hp0, hz]
    cases res with
    | error e => by_cases he : e = GoError.eagain <;> simp [he]
    | ok k => by_cases hk : k = plen <;> simp [hk]

/-- C1 (witness): the single-attempt theorem evaluated on a concrete
no-deadline port and a would-block first attempt. -/
theorem c1_witness :
    PosixPort.Read portNoDeadline 2 [⟨.error GoError.eagain, 1⟩] =
      some (0, some GoError.eagain) ∧
    PosixPort.Write portNoDeadline 2 [⟨.error GoError.eagain, 1⟩] =
      some (0, some GoError.eagain) :=
  c1_no_deadline_single_attempt portNoDeadline 2 ⟨.error GoError.eagain, 1⟩ []
    rfl (by decide)

/-- C2 (code bug, evaluated at the failing input): Read's timeout check
inspects `writeDeadline`, not `readDeadline`.  With a read deadline of 5
already passed (now = 10) and no write deadline, Read returns the
would-block error and never times out; with no read deadline but a write
deadline of 5 passed, Read returns the timeout error.  The claim (and the
spec) require the opposite wiring. -/
theorem c2_read_checks_write_deadline :
    (PosixPort.Read ⟨"p", BaudRate9600, ParityNone, DataBits8, StopBits1, 3, 5, 0⟩ 1
        [⟨.error GoError.eagain, 10⟩] = some (0, some GoError.eagain)) ∧
    (PosixPort.Read ⟨"p", BaudRate9600, ParityNone, DataBits8, StopBits1, 3, 0, 5⟩ 1
        [⟨.error GoError.eagain, 10⟩] = some (0, some GoError.etimedout)) :=
  ⟨rfl, rfl⟩

/-- C3 (counterexample): with no deadline set, a would-block on the first
attempt is returned to the caller as the error result, contradicting the
claim that a would-block condition is never surfaced. -/
theorem c3_counterexample :
    PosixPort.Read portNoDeadline 1 [⟨.error GoError.eagain, 1⟩] =
      some (0, some GoError.eagain) := rfl

/-- C3 (amended): whenever a deadline is set (the consulted `writeDeadline`
field is nonzero), Read and Write never return the would-block error: the
returned error is nil, the timeout error, or a genuine non-would-block
error.  With no deadline set, the would-block error of a first fruitless
attempt is returned as-is (see the counterexample). -/
theorem c3_would_block_not_surfaced (port : PosixPort) (plen n : Nat)
    (events : List Attempt) (hwd : port.writeDeadline ≠ 0) :
    port.Read plen events ≠ some (n, some GoError.eagain) ∧
    port.Write plen events ≠ some (n, some GoError.eagain) := by
  constructor
  · unfold PosixPort.Read
    split
    · simp
    · exact readLoop_ne_eagain port.writeDeadline plen hwd events 0 n
  · unfold PosixPort.Write
    split
    · simp
    · exact writeLoop_ne_eagain port.writeDeadline plen hwd events 0 n

/-- C3 (witness): the amended theorem evaluated on a concrete port with a
set deadline and a would-block attempt trace. -/
theorem c3_witness :
    PosixPort.Read portWriteDeadline3 1 [⟨.error GoError.eagain, 1⟩] ≠
      some (0, some GoError.eagain) ∧
    PosixPort.Write portWriteDeadline3 1 [⟨.error GoError.eagain, 1⟩] ≠
      some (0, some GoError.eagain) :=
  c3_would_block_not_surfaced portWriteDeadline3 1 0 [⟨.error GoError.eagain, 1⟩]
    (by decide)

/-- C4 (code bug, evaluated at the failing input): the adapter's
`SetWriteDeadline` delegates to the port's `SetReadDeadline` (net.go line
54), so `SetWriteDeadline 7` on a fresh connection sets the wrapped port's
read deadline to 7 and leaves its write deadline at the zero time — the
claim (and the `net.Conn` contract) require it to set the write
deadline. -/
theorem c4_conn_write_deadline_cross_wired :
    ((Conn.SetWriteDeadline ⟨portNoDeadline⟩ 7).2.port.readDeadline = 7) ∧
    ((Conn.SetWriteDeadline ⟨portNoDeadline⟩ 7).2.port.writeDeadline = 0) ∧
    ((Conn.SetReadDeadline ⟨portNoDeadline⟩ 7).2.port.readDeadline = 7) :=
  ⟨rfl, rfl, rfl⟩

/-- C5 (counterexample): the enumeration values `BaudRate134` and
`BaudRate100000` have no case in `SetBaudRate`'s switch; calling
`SetBaudRate` with either (current rate differing) fails with the
"invalid baud rate" error, so the error branch is reachable for closed-set
enumeration values, contradicting the claim. -/
theorem c5_counterexample :
    (PosixPort.SetBaudRate portNoDeadline kernOk BaudRate134).1 =
      some (GoError.errorString "invalid baud rate") ∧
    (PosixPort.SetBaudRate portNoDeadline kernOk BaudRate100000).1 =
      some (GoError.errorString "invalid baud rate") :=
  ⟨rfl, rfl⟩

/-- C5 (amended): over the closed enumeration (byte values 0..22), the
baud-rate mapping of `SetBaudRate` is deterministic and total except at
exactly `BaudRate134` and `BaudRate100000`: those two (and only those two)
reach the "invalid baud rate" error branch, and every other enumeration
value is mapped to its platform speed constant. -/
theorem c5_baud_map_total_except_two (termios : Termios) (b : BaudRate)
    (hb : b ≤ 22) :
    (SetBaudRateSwitch b termios = .error (GoError.errorString "invalid baud rate") ↔
      b = BaudRate134 ∨ b = BaudRate100000) ∧
    (b ≠ BaudRate134 → b ≠ BaudRate100000 →
      ∃ t1, SetBaudRateSwitch b termios = .ok t1) := by
  interval_cases b <;>
    simp [SetBaudRateSwitch, BaudRate0, BaudRate50, BaudRate75, BaudRate110,
      BaudRate134, BaudRate150, BaudRate200, BaudRate300, BaudRate600,
      BaudRate1200, BaudRate1800, BaudRate2400, BaudRate4800, BaudRate7200,
      BaudRate9600, BaudRate14400, BaudRate19200, BaudRate28800,
      BaudRate38400, BaudRate57600, BaudRate100000, BaudRate115200,
      BaudRate230400]

/-- C5 (witness): the amended theorem evaluated at `BaudRate134`. -/
theorem c5_witness :
    (SetBaudRateSwitch BaudRate134 termiosZero =
        .error (GoError.errorString "invalid baud rate") ↔
      BaudRate134 = BaudRate134 ∨ BaudRate134 = BaudRate100000) ∧
    (BaudRate134 ≠ BaudRate134 → BaudRate134 ≠ BaudRate100000 →
      ∃ t1, SetBaudRateSwitch BaudRate134 termiosZero = .ok t1) :=
  c5_baud_map_total_except_two termiosZero BaudRate134 (by decide)


/-- A `NewPort` environment where the open succeeds (fd 3) but the
exclusivity ioctl fails. -/
def envExclFail : NewPortEnv := ⟨.ok 3, some (GoError.errno 16), kernOk⟩

/-- C6: whenever `NewPort` gets past the open (the open oracle returned an
fd), either it succeeds — an error-free result carrying a port, nothing
closed — or it fails at some later step (exclusivity ioctl, termios get or
baseline set, or one of the four setter applications), and then the
deferred cleanup closes exactly the opened fd and no port is returned: the
caller never receives a half-open port and no handle leaks. -/
theorem c6_newport_failure_atomic (env : NewPortEnv) (path : String)
    (b : BaudRate) (p : Parity) (d : DataBits) (s : StopBits) (fd : Int)
    (hopen : env.openRes = .ok fd) :
    ((NewPort env path b p d s).err = none ∧
      (NewPort env path b p d s).port ≠ none ∧
      (NewPort env path b p d s).closedFds = []) ∨
    ((NewPort env path b p d s).err ≠ none ∧
      (NewPort env path b p d s).port = none ∧
      (NewPort env path b p d s).closedFds = [fd]) := by
  unfold NewPort
  rw [hopen]
  rcases hexcl : env.exclErr with _ | e0
  · rcases hget : IoctlGetTermios env.kern with ⟨res, kern1⟩
    rcases res with e1 | termios0
    · right; simp [hget]
    · rcases hbase : IoctlSetTermios kern1 (baselineTermios termios0) with ⟨e2, kern2⟩
      rcases e2 with _ | e2
      · rcases hsb : PosixPort.SetBaudRate
            ⟨path, BaudRate9600, ParityNone, DataBits8, StopBits1, fd, 0, 0⟩ kern2 b
          with ⟨e3, port1, kern3⟩
        rcases e3 with _ | e3
        · rcases hsp : PosixPort.SetParity port1 kern3 p with ⟨e4, port2, kern4⟩
          rcases e4 with _ | e4
          · rcases hsd : PosixPort.SetDataBits port2 kern4 d with ⟨e5, port3, kern5⟩
            rcases e5 with _ | e5
            · rcases hss : PosixPort.SetStopBits port3 kern5 s with ⟨e6, port4, kern6⟩
              rcases e6 with _ | e6
              · left; simp [hget, hbase, hsb, hsp, hsd, hss]
              · right; simp [hget, hbase, hsb, hsp, hsd, hss]
            · right; simp [hget, hbase, hsb, hsp, hsd]
          · right; simp [hget, hbase, hsb, hsp]
        · right; simp [hget, hbase, hsb]
      · right; simp [hget, hbase]
  · right; simp

/-- C6 (witness): the atomicity theorem evaluated on a concrete environment
where the exclusivity request fails after a successful open of fd 3. -/
theorem c6_witness :
    ((NewPort envExclFail "/dev/tty.usbserial" BaudRate9600 ParityNone DataBits8
        StopBits1).err = none ∧
      (NewPort envExclFail "/dev/tty.usbserial" BaudRate9600 ParityNone DataBits8
        StopBits1).port ≠ none ∧
      (NewPort envExclFail "/dev/tty.usbserial" BaudRate9600 ParityNone DataBits8
        StopBits1).closedFds = []) ∨
    ((NewPort envExclFail "/dev/tty.usbserial" BaudRate9600 ParityNone DataBits8
        StopBits1).err ≠ none ∧
      (NewPort envExclFail "/dev/tty.usbserial" BaudRate9600 ParityNone DataBits8
        StopBits1).port = none ∧
      (NewPort envExclFail "/dev/tty.usbserial" BaudRate9600 ParityNone DataBits8
        StopBits1).closedFds = [3]) :=
  c6_newport_failure_atomic envExclFail "/dev/tty.usbserial" BaudRate9600
    ParityNone DataBits8 StopBits1 3 rfl

/-- Either `SetBaudRate` leaves the port and the kernel termios untouched,
or it returned success. -/
theorem setBaudRate_frame_or (port : PosixPort) (kern : Kern) (b : BaudRate) :
    ((port.SetBaudRate kern b).2.1 = port ∧
      (port.SetBaudRate kern b).2.2.termios = kern.termios) ∨
    (port.SetBaudRate kern b).1 = none := by
  unfold PosixPort.SetBaudRate IoctlGetTermios IoctlSetTermios
  by_cases hb : b = port.baudRate
  · right; simp [hb]
  · rw [if_neg hb]
    rcases hget : kern.getErrAt kern.getCount with _ | e
    · rcases hsw : SetBaudRateSwitch b kern.termios with e1 | t1
      · left; simp [hget, hsw]
      · rcases hset : kern.setErrAt kern.setCount with _ | e2
        · right; simp [hget, hsw, hset]
        · left; simp [hget, hsw, hset]
    · left; simp [hget]

/-- Either `SetParity` leaves the port and the kernel termios untouched, or
it returned success. -/
theorem setParity_frame_or (port : PosixPort) (kern : Kern) (p : Parity) :
    ((port.SetParity kern p).2.1 = port ∧
      (port.SetParity kern p).2.2.termios = kern.termios) ∨
    (port.SetParity kern p).1 = none := by
  unfold PosixPort.SetParity IoctlGetTermios IoctlSetTermios
  by_cases hp : p = port.parity
  · right; simp [hp]
  · rw [if_neg hp]
    rcases hget : kern.getErrAt kern.getCount with _ | e
    · rcases hsw : SetParitySwitch p (andNot kern.termios.Cflag (PARENB ||| PARODD))
          with e1 | c1
      · left; simp [hget, hsw]
      · rcases hset : kern.setErrAt kern.setCount with _ | e2
        · right; simp [hget, hsw, hset]
        · left; simp [hget, hsw, hset]
    · left; simp [hget]

/-- Either `SetDataBits` leaves the port and the kernel termios untouched,
or it returned success. -/
theorem setDataBits_frame_or (port : PosixPort) (kern : Kern) (d : DataBits) :
    ((port.SetDataBits kern d).2.1 = port ∧
      (port.SetDataBits kern d).2.2.termios = kern.termios) ∨
    (port.SetDataBits kern d).1 = none := by
  unfold PosixPort.SetDataBits IoctlGetTermios IoctlSetTermios
  by_cases hd : d = port.dataBits
  · right; simp [hd]
  · rw [if_neg hd]
    rcases hget : kern.getErrAt kern.getCount with _ | e
    · rcases hsw : SetDataBitsSwitch d (andNot kern.termios.Cflag CSIZE) with e1 | c1
      · left; simp [hget, hsw]
      · rcases hset : kern.setErrAt kern.setCount with _ | e2
        · right; simp [hget, hsw, hset]
        · left; simp [hget, hsw, hset]
    · left; simp [hget]

/-- Either `SetStopBits` leaves the port and the kernel termios untouched,
or it returned success. -/
theorem setStopBits_frame_or (port : PosixPort) (kern : Kern) (s : StopBits) :
    ((port.SetStopBits kern s).2.1 = port ∧
      (port.SetStopBits kern s).2.2.termios = kern.termios) ∨
    (port.SetStopBits kern s).1 = none := by
  unfold PosixPort.SetStopBits IoctlGetTermios IoctlSetTermios
  by_cases hs : s = port.stopBits
  · right; simp [hs]
  · rw [if_neg hs]
    rcases hget : kern.getErrAt kern.getCount with _ | e
    · rcases hsw : SetStopBitsSwitch s (andNot kern.termios.Cflag CSTOPB) with e1 | c1
      · left; simp [hget, hsw]
      · rcases hset : kern.setErrAt kern.setCount with _ | e2
        · right; simp [hget, hsw, hset]
        · left; simp [hget, hsw, hset]
    · left; simp [hget]

/-- C7: if any of the four setters fails — invalid value, or a failure of
the control-interface read or write — then the port's in-memory fields and
the kernel-side termios are exactly as they were before the call, and the
error is surfaced: the in-memory field is committed only after the
configuration write succeeds. -/
theorem c7_setter_failure_unchanged (port : PosixPort) (kern : Kern)
    (b : BaudRate) (p : Parity) (d : DataBits) (s : StopBits) :
    ((port.SetBaudRate kern b).1 ≠ none →
      (port.SetBaudRate kern b).2.1 = port ∧
      (port.SetBaudRate kern b).2.2.termios = kern.termios) ∧
    ((port.SetParity kern p).1 ≠ none →
      (port.SetParity kern p).2.1 = port ∧
      (port.SetParity kern p).2.2.termios = kern.termios) ∧
    ((port.SetDataBits kern d).1 ≠ none →
      (port.SetDataBits kern d).2.1 = port ∧
      (port.SetDataBits kern d).2.2.termios = kern.termios) ∧
    ((port.SetStopBits kern s).1 ≠ none →
      (port.SetStopBits kern s).2.1 = port ∧
      (port.SetStopBits kern s).2.2.termios = kern.termios) := by
  refine ⟨?_, ?_, ?_, ?_⟩ <;> intro h
  · rcases setBaudRate_frame_or port kern b with h1 | h1
    · exact h1
    · exact absurd h1 h
  · rcases setParity_frame_or port kern p with h1 | h1
    · exact h1
    · exact absurd h1 h
  · rcases setDataBits_frame_or port kern d with h1 | h1
    · exact h1
    · exact absurd h1 h
  · rcases setStopBits_frame_or port kern s with h1 | h1
    · exact h1
    · exact absurd h1 h

/-- A control interface whose every get fails with errno 9 (EBADF). -/
def kernGetFails : Kern :=
  ⟨termiosZero, fun _ => some (GoError.errno 9), fun _ => none, 0, 0⟩

/-- C7 (witness): the failure-frame theorem evaluated on a concrete port and
a control interface whose reads fail, with each setter asked for a value
different from the cached one (so each call really fails). -/
theorem c7_witness :
    ((portNoDeadline.SetBaudRate kernGetFails BaudRate0).2.1 = portNoDeadline ∧
      (portNoDeadline.SetBaudRate kernGetFails BaudRate0).2.2.termios =
        kernGetFails.termios) ∧
    ((portNoDeadline.SetParity kernGetFails ParityEven).2.1 = portNoDeadline ∧
      (portNoDeadline.SetParity kernGetFails ParityEven).2.2.termios =
        kernGetFails.termios) ∧
    ((portNoDeadline.SetDataBits kernGetFails DataBits5).2.1 = portNoDeadline ∧
      (portNoDeadline.SetDataBits kernGetFails DataBits5).2.2.termios =
        kernGetFails.termios) ∧
    ((portNoDeadline.SetStopBits kernGetFails StopBits2).2.1 = portNoDeadline ∧
      (portNoDeadline.SetStopBits kernGetFails StopBits2).2.2.termios =
        kernGetFails.termios) :=
  ⟨(c7_setter_failure_unchanged portNoDeadline kernGetFails BaudRate0 ParityEven
      DataBits5 StopBits2).1 (by decide),
   (c7_setter_failure_unchanged portNoDeadline kernGetFails BaudRate0 ParityEven
      DataBits5 StopBits2).2.1 (by decide),
   (c7_setter_failure_unchanged portNoDeadline kernGetFails BaudRate0 ParityEven
      DataBits5 StopBits2).2.2.1 (by decide),
   (c7_setter_failure_unchanged portNoDeadline kernGetFails BaudRate0 ParityEven
      DataBits5 StopBits2).2.2.2 (by decide)⟩

/-- C8: calling any of the four setters with the value already recorded in
the port's state takes the early-return branch: no control-interface read
or write happens (the `Kern` state, counters included, is returned
untouched), the result is success (nil error), and the port is
unchanged. -/
theorem c8_setter_idempotent (port : PosixPort) (kern : Kern) :
    port.SetBaudRate kern port.baudRate = (none, port, kern) ∧
    port.SetParity kern port.parity = (none, port, kern) ∧
    port.SetDataBits kern port.dataBits = (none, port, kern) ∧
    port.SetStopBits kern port.stopBits = (none, port, kern) := by
  refine ⟨?_, ?_, ?_, ?_⟩ <;>
    simp [PosixPort.SetBaudRate, PosixPort.SetParity, PosixPort.SetDataBits,
      PosixPort.SetStopBits]

/-- A port after a successful `Close`: the fd holds the sentinel `-1`. -/
def closedPort : PosixPort :=
  ⟨"/dev/tty.usbserial", BaudRate9600, ParityNone, DataBits8, StopBits1, -1, 0, 0⟩

/-- C9 (counterexample): on a port whose fd is the post-`Close` sentinel
`-1`, a setter called with the cached value returns success (nil error),
and `Read`/`Write` of an empty buffer return `(0, nil)` — the claim
requires every such post-close operation to fail with a dedicated "closed"
error. -/
theorem c9_counterexample :
    closedPort.fd = -1 ∧
    (closedPort.SetBaudRate kernOk closedPort.baudRate).1 = none ∧
    closedPort.Read 0 [] = some (0, none) ∧
    closedPort.Write 0 [] = some (0, none) :=
  ⟨rfl, rfl, rfl, rfl⟩

/-- C9 (amended): a successful `Close` only records the sentinel fd `-1`;
no operation checks it and there is no dedicated "closed" error.  On a
closed port, each setter called with the cached value still returns
success without touching the control interface, and `Read`/`Write` of an
empty buffer still return `(0, nil)`; other operations simply run against
the stale handle and surface whatever error the control interface or I/O
oracle returns. -/
theorem c9_post_close_not_rejected (port : PosixPort) (kern : Kern)
    (events : List Attempt) (_hclosed : port.fd = -1) :
    (PosixPort.Close port none).2.fd = -1 ∧
    (port.SetBaudRate kern port.baudRate).1 = none ∧
    (port.SetParity kern port.parity).1 = none ∧
    (port.SetDataBits kern port.dataBits).1 = none ∧
    (port.SetStopBits kern port.stopBits).1 = none ∧
    port.Read 0 events = some (0, none) ∧
    port.Write 0 events = some (0, none) := by
  refine ⟨rfl, ?_, ?_, ?_, ?_, ?_, ?_⟩ <;>
    simp [PosixPort.SetBaudRate, PosixPort.SetParity, PosixPort.SetDataBits,
      PosixPort.SetStopBits, PosixPort.Read, PosixPort.Write]

/-- C9 (witness): the amended theorem evaluated on the concrete closed
port. -/
theorem c9_witness :
    (PosixPort.Close closedPort none).2.fd = -1 ∧
    (closedPort.SetBaudRate kernOk closedPort.baudRate).1 = none ∧
    (closedPort.SetParity kernOk closedPort.parity).1 = none ∧
    (closedPort.SetDataBits kernOk closedPort.dataBits).1 = none ∧
    (closedPort.SetStopBits kernOk closedPort.stopBits).1 = none ∧
    closedPort.Read 0 [] = some (0, none) ∧
    closedPort.Write 0 [] = some (0, none) :=
  c9_post_close_not_rejected closedPort kernOk [] rfl

/-- `SetBaudRate` returns either the input port or the input port with only
`baudRate` replaced. -/
theorem setBaudRate_port_cases (port : PosixPort) (kern : Kern) (b : BaudRate) :
    (port.SetBaudRate kern b).2.1 = port ∨
    (port.SetBaudRate kern b).2.1 = { port with baudRate := b } := by
  unfold PosixPort.SetBaudRate IoctlGetTermios IoctlSetTermios
  by_cases hb : b = port.baudRate
  · left; simp [hb]
  · rw [if_neg hb]
    rcases hget : kern.getErrAt kern.getCount with _ | e
    · rcases hsw : SetBaudRateSwitch b kern.termios with e1 | t1
      · left; simp [hget, hsw]
      · rcases hset : kern.setErrAt kern.setCount with _ | e2
        · right; simp [hget, hsw, hset]
        · left; simp [hget, hsw, hset]
    · left; simp [hget]

/-- `SetParity` returns either the input port or the input port with only
`parity` replaced. -/
theorem setParity_port_cases (port : PosixPort) (kern : Kern) (p : Parity) :
    (port.SetParity kern p).2.1 = port ∨
    (port.SetParity kern p).2.1 = { port with parity := p } := by
  unfold PosixPort.SetParity IoctlGetTermios IoctlSetTermios
  by_cases hp : p = port.parity
  · left; simp [hp]
  · rw [if_neg hp]
    rcases hget : kern.getErrAt kern.getCount with _ | e
    · rcases hsw : SetParitySwitch p (andNot kern.termios.Cflag (PARENB ||| PARODD))
          with e1 | c1
      · left; simp [hget, hsw]
      · rcases hset : kern.setErrAt kern.setCount with _ | e2
        · right; simp [hget, hsw, hset]
        · left; simp [hget, hsw, hset]
    · left; simp [hget]

/-- `SetDataBits` returns either the input port or the input port with only
`dataBits` replaced. -/
theorem setDataBits_port_cases (port : PosixPort) (kern : Kern) (d : DataBits) :
    (port.SetDataBits kern d).2.1 = port ∨
    (port.SetDataBits kern d).2.1 = { port with dataBits := d } := by
  unfold PosixPort.SetDataBits IoctlGetTermios IoctlSetTermios
  by_cases hd : d = port.dataBits
  · left; simp [hd]
  · rw [if_neg hd]
    rcases hget : kern.getErrAt kern.getCount with _ | e
    · rcases hsw : SetDataBitsSwitch d (andNot kern.termios.Cflag CSIZE) with e1 | c1
      · left; simp [hget, hsw]
      · rcases hset : kern.setErrAt kern.setCount with _ | e2
        · right; simp [hget, hsw, hset]
        · left; simp [hget, hsw, hset]
    · left; simp [hget]

/-- `SetStopBits` returns either the input port or the input port with only
`stopBits` replaced. -/
theorem setStopBits_port_cases (port : PosixPort) (kern : Kern) (s : StopBits) :
    (port.SetStopBits kern s).2.1 = port ∨
    (port.SetStopBits kern s).2.1 = { port with stopBits := s } := by
  unfold PosixPort.SetStopBits IoctlGetTermios IoctlSetTermios
  by_cases hs : s = port.stopBits
  · left; simp [hs]
  · rw [if_neg hs]
    rcases hget : kern.getErrAt kern.getCount with _ | e
    · rcases hsw : SetStopBitsSwitch s (andNot kern.termios.Cflag CSTOPB) with e1 | c1
      · left; simp [hget, hsw]
      · rcases hset : kern.setErrAt kern.setCount with _ | e2
        · right; simp [hget, hsw, hset]
        · left; simp [hget, hsw, hset]
    · left; simp [hget]

/-- C10: frame conditions.  Each setter's returned port agrees with the
input port on every field other than its own (`SetBaudRate` can change
only `baudRate`, and so on); `SetReadDeadline` returns exactly the input
port with `readDeadline` replaced, `SetWriteDeadline` exactly the input
with `writeDeadline` replaced; `Close` never touches `path`.  `Read` and
`Write` take the port immutably and return no port in this embedding,
mirroring the source methods, which never assign to any port field — so
they change no configuration, deadline, path or handle field by
construction. -/
theorem c10_operations_frame (port : PosixPort) (kern : Kern) (b : BaudRate)
    (p : Parity) (d : DataBits) (s : StopBits) (t : Nat) (ce : Option GoError) :
    ((port.SetBaudRate kern b).2.1.path = port.path ∧
      (port.SetBaudRate kern b).2.1.parity = port.parity ∧
      (port.SetBaudRate kern b).2.1.dataBits = port.dataBits ∧
      (port.SetBaudRate kern b).2.1.stopBits = port.stopBits ∧
      (port.SetBaudRate kern b).2.1.fd = port.fd ∧
      (port.SetBaudRate kern b).2.1.readDeadline = port.readDeadline ∧
      (port.SetBaudRate kern b).2.1.writeDeadline = port.writeDeadline) ∧
    ((port.SetParity kern p).2.1.path = port.path ∧
      (port.SetParity kern p).2.1.baudRate = port.baudRate ∧
      (port.SetParity kern p).2.1.dataBits = port.dataBits ∧
      (port.SetParity kern p).2.1.stopBits = port.stopBits ∧
      (port.SetParity kern p).2.1.fd = port.fd ∧
      (port.SetParity kern p).2.1.readDeadline = port.readDeadline ∧
      (port.SetParity kern p).2.1.writeDeadline = port.writeDeadline) ∧
    ((port.SetDataBits kern d).2.1.path = port.path ∧
      (port.SetDataBits kern d).2.1.baudRate = port.baudRate ∧
      (port.SetDataBits kern d).2.1.parity = port.parity ∧
      (port.SetDataBits kern d).2.1.stopBits = port.stopBits ∧
      (port.SetDataBits kern d).2.1.fd = port.fd ∧
      (port.SetDataBits kern d).2.1.readDeadline = port.readDeadline ∧
      (port.SetDataBits kern d).2.1.writeDeadline = port.writeDeadline) ∧
    ((port.SetStopBits kern s).2.1.path = port.path ∧
      (port.SetStopBits kern s).2.1.baudRate = port.baudRate ∧
      (port.SetStopBits kern s).2.1.parity = port.parity ∧
      (port.SetStopBits kern s).2.1.dataBits = port.dataBits ∧
      (port.SetStopBits kern s).2.1.fd = port.fd ∧
      (port.SetStopBits kern s).2.1.readDeadline = port.readDeadline ∧
      (port.SetStopBits kern s).2.1.writeDeadline = port.writeDeadline) ∧
    ((port.SetReadDeadline t).2 = { port with readDeadline := t }) ∧
    ((port.SetWriteDeadline t).2 = { port with writeDeadline := t }) ∧
    ((PosixPort.Close port ce).2.path = port.path) := by
  refine ⟨?_, ?_, ?_, ?_, rfl, rfl, ?_⟩
  · rcases setBaudRate_port_cases port kern b with h | h <;> rw [h] <;> simp
  · rcases setParity_port_cases port kern p with h | h <;> rw [h] <;> simp
  · rcases setDataBits_port_cases port kern d with h | h <;> rw [h] <;> simp
  · rcases setStopBits_port_cases port kern s with h | h <;> rw [h] <;> simp
  · cases ce <;> simp [PosixPort.Close]
